import Mathlib

/-!
Verification of the Decodeat recommendation engine (FastAPI service).

This file shallowly embeds the parts of the service that the checked
properties are about:

* `decodeat/services/enhanced_vector_service.py`
  (`calculate_nutrition_ratios`),
* `decodeat/utils/performance.py` (`RecommendationCache`),
* `decodeat/services/recommendation_service.py`
  (fallbacks, quality grading, user preference vector,
  `get_product_based_recommendations`),
* `decodeat/services/product_based_recommendation_service.py`
  (similarity scoring and candidate ranking),
* `decodeat/services/vector_service.py` (`convert_text_to_vector`).

Conventions of the embedding:

* Python floats are idealised as exact rationals (`ℚ`); the cosine
  similarity (which needs a square root) is idealised over `ℝ`.
* `round(x, n)` is embedded as round-half-to-even on the exact value.
* The external ChromaDB collection is modelled by a `ChromaEnv`: a list of
  stored metadata records in insertion order, an availability flag
  (`is_chromadb_available`) and a flag making every collection call raise.
* Python `try/except` is embedded with `Except`; a function that catches
  everything is total.
-/

/- Batteries marks the rational-number field operations `@[irreducible]`;
re-allowing unfolding lets `decide` evaluate concrete rational
computations (the kernel is unaffected by reducibility attributes). -/
attribute [local semireducible] Rat.inv Rat.add Rat.mul Rat.sub Rat.ofScientific

/-! ### Rounding: Python `round(x, ndigits)` (half-to-even) -/

/-- Round-half-to-even of `x` to an integer, as Python `round` does on the
exact value of its argument. -/
def rhe {K : Type} [LinearOrderedField K] [FloorRing K] (x : K) : ℤ :=
  if x - Int.floor x < 1 / 2 then Int.floor x
  else if 1 / 2 < x - Int.floor x then Int.floor x + 1
  else if Even (Int.floor x) then Int.floor x else Int.floor x + 1

/-- Python `round(x, 2)`. -/
def round2 {K : Type} [LinearOrderedField K] [FloorRing K] (x : K) : K :=
  (rhe (100 * x) : ℤ) / 100

/-- Python `round(x, 3)`. -/
def round3 {K : Type} [LinearOrderedField K] [FloorRing K] (x : K) : K :=
  (rhe (1000 * x) : ℤ) / 1000

theorem rhe_le {K : Type} [LinearOrderedField K] [FloorRing K] (x : K) :
    (rhe x : K) ≤ x + 1 / 2 := by
  unfold rhe
  have h1 := Int.floor_le x
  have h2 := Int.lt_floor_add_one x
  split_ifs with ha hb hc <;> push_cast <;> linarith

theorem le_rhe {K : Type} [LinearOrderedField K] [FloorRing K] (x : K) :
    x - 1 / 2 ≤ (rhe x : K) := by
  unfold rhe
  have h1 := Int.floor_le x
  have h2 := Int.lt_floor_add_one x
  split_ifs with ha hb hc <;> push_cast <;> linarith

theorem rhe_le_of_le {K : Type} [LinearOrderedField K] [FloorRing K]
    {x : K} {n : ℤ} (h : x ≤ n) : rhe x ≤ n := by
  have hb : (rhe x : K) ≤ (n : K) + 1 / 2 := le_trans (rhe_le x) (by linarith)
  have : (rhe x : K) < ((n + 1 : ℤ) : K) := by push_cast; linarith
  have := Int.cast_lt.mp this
  omega

theorem le_rhe_of_le {K : Type} [LinearOrderedField K] [FloorRing K]
    {x : K} {n : ℤ} (h : (n : K) ≤ x) : n ≤ rhe x := by
  have hb : (n : K) - 1 / 2 ≤ (rhe x : K) := le_trans (by linarith) (le_rhe x)
  have : ((n - 1 : ℤ) : K) < (rhe x : K) := by push_cast; linarith
  have := Int.cast_lt.mp this
  omega

theorem round2_nonneg {K : Type} [LinearOrderedField K] [FloorRing K]
    {x : K} (h : 0 ≤ x) : 0 ≤ round2 x := by
  unfold round2
  have : (0 : ℤ) ≤ rhe (100 * x) := le_rhe_of_le (by push_cast; linarith)
  have : ((0 : ℤ) : K) ≤ (rhe (100 * x) : ℤ) := Int.cast_le.mpr this
  push_cast at this
  linarith

theorem round2_le_hundred {K : Type} [LinearOrderedField K] [FloorRing K]
    {x : K} (h : x ≤ 100) : round2 x ≤ 100 := by
  unfold round2
  have : rhe (100 * x) ≤ (10000 : ℤ) := rhe_le_of_le (by push_cast; linarith)
  have : ((rhe (100 * x)) : K) ≤ ((10000 : ℤ) : K) := Int.cast_le.mpr this
  push_cast at this
  linarith

theorem round2_le_add {K : Type} [LinearOrderedField K] [FloorRing K] (x : K) :
    round2 x ≤ x + 1 / 200 := by
  unfold round2
  have := rhe_le (100 * x)
  linarith

/-! ### `EnhancedVectorService.calculate_nutrition_ratios`
(`decodeat/services/enhanced_vector_service.py`, lines 35-110)

A nutrition value in the incoming mapping is a number, or something that
makes Python `float(...)` raise (`ValueError`/`TypeError`); a missing key is
defaulted to `0` by `nutrition_info.get(key, 0)`.  All four `float(...)`
coercions sit in a single `try`, so one bad field aborts them all. -/

/-- A value stored under a nutrition key: a number, or a value on which
`float(...)` raises. -/
inductive NutVal where
  | num (q : ℚ)
  | bad
deriving DecidableEq

/-- The nutrition mapping, restricted to the four keys the function reads;
`isEmpty` is Python truthiness of the whole dict (`if not nutrition_info`). -/
structure NutritionInfo where
  isEmpty : Bool
  carbohydrate : Option NutVal
  protein : Option NutVal
  fat : Option NutVal
  energy : Option NutVal
deriving DecidableEq

/-- `float(nutrition_info.get(key, 0))`: missing key defaults to `0`;
a bad value raises (`none`). -/
def coerceNut : Option NutVal → Option ℚ
  | none => some 0
  | some (NutVal.num q) => some q
  | some NutVal.bad => none

/-- The returned ratio record. -/
structure NutritionRatios where
  carbohydrate_ratio : ℚ
  protein_ratio : ℚ
  fat_ratio : ℚ
  total_calories : ℚ
deriving DecidableEq

def zeroRatios : NutritionRatios :=
  { carbohydrate_ratio := 0, protein_ratio := 0, fat_ratio := 0
    total_calories := 0 }

/-- `EnhancedVectorService.calculate_nutrition_ratios`. -/
def calculate_nutrition_ratios (nutrition_info : NutritionInfo) :
    NutritionRatios :=
  if nutrition_info.isEmpty then zeroRatios
  else
    match coerceNut nutrition_info.carbohydrate,
        coerceNut nutrition_info.protein,
        coerceNut nutrition_info.fat,
        coerceNut nutrition_info.energy with
    | some c0, some p0, some f0, some e0 =>
      -- negative values are clamped to 0
      let carbohydrate := max 0 c0
      let protein := max 0 p0
      let fat := max 0 f0
      let declared := max 0 e0
      -- kcal per gram: carbohydrate 4, protein 4, fat 9
      let carb_calories := carbohydrate * 4
      let protein_calories := protein * 4
      let fat_calories := fat * 9
      let calculated_calories := carb_calories + protein_calories + fat_calories
      if declared = 0 ∧ ¬ (0 < calculated_calories) then zeroRatios
      else
        let total_calories := if declared = 0 then calculated_calories else declared
        let cr := carb_calories / total_calories * 100
        let pr := protein_calories / total_calories * 100
        let fr := fat_calories / total_calories * 100
        let total_ratio := cr + pr + fr
        if 100 < total_ratio then
          { carbohydrate_ratio := round2 (cr / total_ratio * 100)
            protein_ratio := round2 (pr / total_ratio * 100)
            fat_ratio := round2 (fr / total_ratio * 100)
            total_calories := total_calories }
        else
          { carbohydrate_ratio := round2 cr
            protein_ratio := round2 pr
            fat_ratio := round2 fr
            total_calories := total_calories }
    -- any float(...) failure is caught and yields the all-zero record
    | _, _, _, _ => zeroRatios

/-! ### Claims C2 and C8 (nutrition ratio calculator) -/

theorem round2_triple_bounds (x y z : ℚ) (hx : 0 ≤ x) (hy : 0 ≤ y)
    (hz : 0 ≤ z) (hxu : x ≤ 100) (hyu : y ≤ 100) (hzu : z ≤ 100)
    (hsum : x + y + z ≤ 100) :
    (0 ≤ round2 x ∧ round2 x ≤ 100) ∧ (0 ≤ round2 y ∧ round2 y ≤ 100) ∧
      (0 ≤ round2 z ∧ round2 z ≤ 100) ∧
      round2 x + round2 y + round2 z ≤ 100 + 3 / 200 := by
  have bx := round2_le_add x
  have by2 := round2_le_add y
  have bz := round2_le_add z
  exact ⟨⟨round2_nonneg hx, round2_le_hundred hxu⟩,
    ⟨round2_nonneg hy, round2_le_hundred hyu⟩,
    ⟨round2_nonneg hz, round2_le_hundred hzu⟩, by linarith⟩

theorem rescale_sum_eq (a b c : ℚ) (h : 0 < a + b + c) :
    a / (a + b + c) * 100 + b / (a + b + c) * 100 + c / (a + b + c) * 100 =
      100 := by
  field_simp
  ring

theorem resc_bounds (cc pc fc S : ℚ) (hcc : 0 ≤ cc) (hpc : 0 ≤ pc)
    (hfc : 0 ≤ fc) (hS : 0 ≤ S)
    (hover : 100 < cc / S * 100 + pc / S * 100 + fc / S * 100) :
    (0 ≤ round2 (cc / S * 100 /
          (cc / S * 100 + pc / S * 100 + fc / S * 100) * 100) ∧
        round2 (cc / S * 100 /
          (cc / S * 100 + pc / S * 100 + fc / S * 100) * 100) ≤ 100) ∧
      (0 ≤ round2 (pc / S * 100 /
            (cc / S * 100 + pc / S * 100 + fc / S * 100) * 100) ∧
          round2 (pc / S * 100 /
            (cc / S * 100 + pc / S * 100 + fc / S * 100) * 100) ≤ 100) ∧
        (0 ≤ round2 (fc / S * 100 /
              (cc / S * 100 + pc / S * 100 + fc / S * 100) * 100) ∧
            round2 (fc / S * 100 /
              (cc / S * 100 + pc / S * 100 + fc / S * 100) * 100) ≤ 100) ∧
          round2 (cc / S * 100 /
              (cc / S * 100 + pc / S * 100 + fc / S * 100) * 100) +
              round2 (pc / S * 100 /
                (cc / S * 100 + pc / S * 100 + fc / S * 100) * 100) +
              round2 (fc / S * 100 /
                (cc / S * 100 + pc / S * 100 + fc / S * 100) * 100) ≤
            100 + 3 / 200 := by
  set a : ℚ := cc / S * 100 with hA
  set b : ℚ := pc / S * 100 with hB
  set c : ℚ := fc / S * 100 with hC
  have ha : 0 ≤ a := by rw [hA]; exact mul_nonneg (div_nonneg hcc hS) (by norm_num)
  have hb : 0 ≤ b := by rw [hB]; exact mul_nonneg (div_nonneg hpc hS) (by norm_num)
  have hc : 0 ≤ c := by rw [hC]; exact mul_nonneg (div_nonneg hfc hS) (by norm_num)
  have htr : 0 < a + b + c := by linarith
  have hx0 : 0 ≤ a / (a + b + c) * 100 :=
    mul_nonneg (div_nonneg ha htr.le) (by norm_num)
  have hy0 : 0 ≤ b / (a + b + c) * 100 :=
    mul_nonneg (div_nonneg hb htr.le) (by norm_num)
  have hz0 : 0 ≤ c / (a + b + c) * 100 :=
    mul_nonneg (div_nonneg hc htr.le) (by norm_num)
  have hxu : a / (a + b + c) * 100 ≤ 100 := by
    have h1 : a / (a + b + c) ≤ 1 := (div_le_one htr).mpr (by linarith)
    linarith
  have hyu : b / (a + b + c) * 100 ≤ 100 := by
    have h1 : b / (a + b + c) ≤ 1 := (div_le_one htr).mpr (by linarith)
    linarith
  have hzu : c / (a + b + c) * 100 ≤ 100 := by
    have h1 : c / (a + b + c) ≤ 1 := (div_le_one htr).mpr (by linarith)
    linarith
  have hsum : a / (a + b + c) * 100 + b / (a + b + c) * 100 +
      c / (a + b + c) * 100 ≤ 100 := le_of_eq (rescale_sum_eq a b c htr)
  exact round2_triple_bounds _ _ _ hx0 hy0 hz0 hxu hyu hzu hsum

theorem noresc_bounds (cc pc fc S : ℚ) (hcc : 0 ≤ cc) (hpc : 0 ≤ pc)
    (hfc : 0 ≤ fc) (hS : 0 ≤ S)
    (hn : ¬ 100 < cc / S * 100 + pc / S * 100 + fc / S * 100) :
    (0 ≤ round2 (cc / S * 100) ∧ round2 (cc / S * 100) ≤ 100) ∧
      (0 ≤ round2 (pc / S * 100) ∧ round2 (pc / S * 100) ≤ 100) ∧
        (0 ≤ round2 (fc / S * 100) ∧ round2 (fc / S * 100) ≤ 100) ∧
          round2 (cc / S * 100) + round2 (pc / S * 100) +
              round2 (fc / S * 100) ≤ 100 + 3 / 200 := by
  push_neg at hn
  have ha : 0 ≤ cc / S * 100 := mul_nonneg (div_nonneg hcc hS) (by norm_num)
  have hb : 0 ≤ pc / S * 100 := mul_nonneg (div_nonneg hpc hS) (by norm_num)
  have hc : 0 ≤ fc / S * 100 := mul_nonneg (div_nonneg hfc hS) (by norm_num)
  exact round2_triple_bounds _ _ _ ha hb hc (by linarith) (by linarith)
    (by linarith) hn

/-- C2 (amended): for every nutrition input each returned ratio lies in
[0, 100] and the three returned ratios sum to at most 100.015: the sum
before 2-decimal rounding is at most 100 (rescaling makes it exactly 100
when it would exceed 100), and each 2-decimal rounding adds at most
0.005. -/
theorem c2_ratio_bounds (nutrition_info : NutritionInfo) :
    (0 ≤ (calculate_nutrition_ratios nutrition_info).carbohydrate_ratio ∧
      (calculate_nutrition_ratios nutrition_info).carbohydrate_ratio ≤ 100) ∧
    (0 ≤ (calculate_nutrition_ratios nutrition_info).protein_ratio ∧
      (calculate_nutrition_ratios nutrition_info).protein_ratio ≤ 100) ∧
    (0 ≤ (calculate_nutrition_ratios nutrition_info).fat_ratio ∧
      (calculate_nutrition_ratios nutrition_info).fat_ratio ≤ 100) ∧
    (calculate_nutrition_ratios nutrition_info).carbohydrate_ratio +
        (calculate_nutrition_ratios nutrition_info).protein_ratio +
        (calculate_nutrition_ratios nutrition_info).fat_ratio ≤
      100 + 3 / 200 := by
  unfold calculate_nutrition_ratios
  cases hb : nutrition_info.isEmpty
  case true => norm_num [zeroRatios]
  case false =>
  simp only [Bool.false_eq_true, if_false]
  rcases hc : coerceNut nutrition_info.carbohydrate with _ | c0 <;>
    rcases hp : coerceNut nutrition_info.protein with _ | p0 <;>
    rcases hf : coerceNut nutrition_info.fat with _ | f0 <;>
    (try dsimp only) <;> (first | (norm_num [zeroRatios]; done) | skip)
  rcases he : coerceNut nutrition_info.energy with _ | e0 <;>
    try dsimp only
  case none => norm_num [zeroRatios]
  have h1 : (0 : ℚ) ≤ max 0 c0 * 4 := mul_nonneg (le_max_left 0 c0) (by norm_num)
  have h2 : (0 : ℚ) ≤ max 0 p0 * 4 := mul_nonneg (le_max_left 0 p0) (by norm_num)
  have h3 : (0 : ℚ) ≤ max 0 f0 * 9 := mul_nonneg (le_max_left 0 f0) (by norm_num)
  split_ifs with hz hd hover hover2
  · norm_num [zeroRatios]
  · exact resc_bounds _ _ _ _ h1 h2 h3 (by linarith) hover
  · exact noresc_bounds _ _ _ _ h1 h2 h3 (by linarith) hover
  · exact resc_bounds _ _ _ _ h1 h2 h3 (le_max_left 0 e0) hover2
  · exact noresc_bounds _ _ _ _ h1 h2 h3 (le_max_left 0 e0) hover2

/-- C2 (counterexample): the nutrition input with carbohydrate 8.334 g,
protein 8.334 g, fat 3.7032 g and declared energy 100 kcal is returned as
ratios (33.34, 33.34, 33.33), whose sum 100.01 exceeds the claimed bound
100.0001.  (The pre-rounding ratios sum to exactly 100 after rescaling, and
rounding each to 2 decimals pushes the sum over the claimed tolerance.) -/
theorem c2_counterexample :
    calculate_nutrition_ratios
        { isEmpty := false
          carbohydrate := some (NutVal.num (8334 / 1000))
          protein := some (NutVal.num (8334 / 1000))
          fat := some (NutVal.num (37032 / 10000))
          energy := some (NutVal.num 100) } =
      { carbohydrate_ratio := 1667 / 50, protein_ratio := 1667 / 50
        fat_ratio := 3333 / 100, total_calories := 100 } ∧
    ¬ ((1667 / 50 : ℚ) + 1667 / 50 + 3333 / 100 ≤ 100 + 1 / 10000) := by
  constructor
  · decide
  · norm_num

/-- C8 (counterexample): with carbohydrate non-numeric but protein 10 g,
fat 5 g and energy 100 kcal, `calculate_nutrition_ratios` returns the
all-zero record, not the ratios computed from the remaining numeric
nutrients (which would be protein 40 %, fat 45 %): the four fields are
coerced in one `try`, not independently. -/
theorem c8_counterexample :
    calculate_nutrition_ratios
        { isEmpty := false, carbohydrate := some NutVal.bad
          protein := some (NutVal.num 10), fat := some (NutVal.num 5)
          energy := some (NutVal.num 100) } = zeroRatios ∧
    calculate_nutrition_ratios
        { isEmpty := false, carbohydrate := some (NutVal.num 0)
          protein := some (NutVal.num 10), fat := some (NutVal.num 5)
          energy := some (NutVal.num 100) } =
      { carbohydrate_ratio := 0, protein_ratio := 40, fat_ratio := 45
        total_calories := 100 } ∧
    zeroRatios ≠
      ({ carbohydrate_ratio := 0, protein_ratio := 40, fat_ratio := 45
         total_calories := 100 } : NutritionRatios) := by
  refine ⟨by decide, by decide, by decide⟩

/-- C8 (amended): the four nutrition fields are coerced together in a
single fallible step: a non-numeric value in any one of them yields the
all-zero result even when the others are valid numbers; a missing field
defaults to 0 and a negative value is clamped to 0 field-by-field. -/
theorem c8_joint_coercion (ni : NutritionInfo) :
    (ni.isEmpty = false →
      (coerceNut ni.carbohydrate = none ∨ coerceNut ni.protein = none ∨
        coerceNut ni.fat = none ∨ coerceNut ni.energy = none) →
      calculate_nutrition_ratios ni = zeroRatios) ∧
    calculate_nutrition_ratios { ni with carbohydrate := none } =
      calculate_nutrition_ratios
        { ni with carbohydrate := some (NutVal.num 0) } ∧
    calculate_nutrition_ratios { ni with energy := none } =
      calculate_nutrition_ratios { ni with energy := some (NutVal.num 0) } ∧
    ∀ q : ℚ, q ≤ 0 →
      calculate_nutrition_ratios
          { ni with carbohydrate := some (NutVal.num q) } =
        calculate_nutrition_ratios
          { ni with carbohydrate := some (NutVal.num 0) } := by
  refine ⟨?_, ?_, ?_, ?_⟩
  · intro hb hbad
    unfold calculate_nutrition_ratios
    rw [hb]
    rcases hbad with h | h | h | h <;> rw [h] <;>
      rcases coerceNut ni.carbohydrate with _ | c1 <;>
      rcases coerceNut ni.protein with _ | p1 <;>
      rcases coerceNut ni.fat with _ | f1 <;>
      rcases coerceNut ni.energy with _ | e1 <;>
      rfl
  · rfl
  · rfl
  · intro q hq
    unfold calculate_nutrition_ratios
    rcases hp : coerceNut ni.protein with _ | p1 <;>
      rcases hf : coerceNut ni.fat with _ | f1 <;>
      rcases he : coerceNut ni.energy with _ | e1 <;>
      dsimp only [coerceNut]
    all_goals rw [max_eq_left hq, max_self]

/-- C8 (witness): the joint-coercion theorem applied to a concrete input
with a bad carbohydrate field, and the clamp part applied at -3. -/
theorem c8_witness :
    calculate_nutrition_ratios
        { isEmpty := false, carbohydrate := some NutVal.bad
          protein := some (NutVal.num 3), fat := some (NutVal.num 4)
          energy := some (NutVal.num 50) } = zeroRatios ∧
    calculate_nutrition_ratios
        { isEmpty := false, carbohydrate := some (NutVal.num (-3))
          protein := some (NutVal.num 3), fat := some (NutVal.num 4)
          energy := some (NutVal.num 50) } =
      calculate_nutrition_ratios
        { isEmpty := false, carbohydrate := some (NutVal.num 0)
          protein := some (NutVal.num 3), fat := some (NutVal.num 4)
          energy := some (NutVal.num 50) } :=
  ⟨(c8_joint_coercion
      { isEmpty := false, carbohydrate := some NutVal.bad
        protein := some (NutVal.num 3), fat := some (NutVal.num 4)
        energy := some (NutVal.num 50) }).1 rfl (Or.inl rfl),
    (c8_joint_coercion
      { isEmpty := false, carbohydrate := some NutVal.bad
        protein := some (NutVal.num 3), fat := some (NutVal.num 4)
        energy := some (NutVal.num 50) }).2.2.2 (-3) (by norm_num)⟩

/-! ### `RecommendationCache` (`decodeat/utils/performance.py`, lines 161-232)

A Python dict is modelled as a list of `(key, value, insertedAt)` triples in
insertion order; dict keys are unique (`cacheKeysNodup`).  Assigning to an
existing key replaces the value in place; assigning a new key appends.
`time.time()` is passed in explicitly as `now`. -/

structure RecommendationCache (V : Type) where
  entries : List (String × V × ℚ)
  max_size : ℕ
  ttl_seconds : ℚ
deriving DecidableEq

/-- Dict keys are pairwise distinct. -/
def cacheKeysNodup {V : Type} (c : RecommendationCache V) : Prop :=
  (c.entries.map Prod.fst).Nodup

/-- Dict lookup `self.cache[key]` (`key in self.cache` when `isSome`). -/
def cacheLookup {V : Type} (c : RecommendationCache V) (key : String) :
    Option (V × ℚ) :=
  (c.entries.find? (fun e => e.1 == key)).map Prod.snd

/-- Python dict assignment `self.cache[key] = (result, now)`. -/
def insertOrReplace {V : Type} (l : List (String × V × ℚ)) (key : String)
    (v : V) (now : ℚ) : List (String × V × ℚ) :=
  if l.any (fun e => e.1 == key) then
    l.map (fun e => if e.1 == key then (key, v, now) else e)
  else l ++ [(key, v, now)]

/-- `min(self.cache.keys(), key=lambda k: self.cache[k][1])`: the first
entry (in insertion order) with the smallest timestamp; `none` on an empty
dict (where Python `min` raises `ValueError`). -/
def oldestEntry {V : Type} : List (String × V × ℚ) → Option (String × V × ℚ)
  | [] => none
  | e :: es =>
    match oldestEntry es with
    | none => some e
    | some m => if m.2.2 < e.2.2 then some m else some e

/-- `RecommendationCache.get` (with the generated key passed in): returns
the hit value and the possibly-shrunk cache.  A present entry is a hit
while `now - timestamp < ttl_seconds`, and is deleted (and a miss
returned) once expired. -/
def cacheGet {V : Type} (c : RecommendationCache V) (key : String)
    (now : ℚ) : Option V × RecommendationCache V :=
  match cacheLookup c key with
  | none => (none, c)
  | some (v, ts) =>
    if now - ts < c.ttl_seconds then (some v, c)
    else (none, { c with entries := c.entries.filter (fun e => e.1 != key) })

/-- `RecommendationCache.set`: evicts the oldest entry when
`len(self.cache) >= self.max_size`, then assigns.  `none` models the
`ValueError` Python `min` raises on an empty dict (reachable only with
`max_size = 0`). -/
def cacheSet {V : Type} (c : RecommendationCache V) (key : String) (v : V)
    (now : ℚ) : Option (RecommendationCache V) :=
  if c.max_size ≤ c.entries.length then
    match oldestEntry c.entries with
    | none => none
    | some m =>
      some { c with entries :=
        insertOrReplace (c.entries.filter (fun e => e.1 != m.1)) key v now }
  else some { c with entries := insertOrReplace c.entries key v now }

theorem oldestEntry_eq_none {V : Type} {l : List (String × V × ℚ)} :
    oldestEntry l = none ↔ l = [] := by
  cases l with
  | nil => simp [oldestEntry]
  | cons e es =>
    simp only [oldestEntry]
    rcases oldestEntry es with _ | m <;> dsimp only
    · simp
    · split <;> simp

theorem oldestEntry_mem {V : Type} {l : List (String × V × ℚ)}
    {m : String × V × ℚ} (h : oldestEntry l = some m) : m ∈ l := by
  induction l generalizing m with
  | nil => simp [oldestEntry] at h
  | cons e es ih =>
    rw [oldestEntry] at h
    rcases he : oldestEntry es with _ | m1 <;> rw [he] at h
    · simp only [Option.some.injEq] at h
      simp [h.symm]
    · dsimp only at h
      split_ifs at h with hlt <;> simp only [Option.some.injEq] at h <;>
        subst h
      · exact List.mem_cons_of_mem e (ih he)
      · exact List.mem_cons_self e es

theorem oldestEntry_min {V : Type} {l : List (String × V × ℚ)}
    {m : String × V × ℚ} (h : oldestEntry l = some m) :
    ∀ e ∈ l, m.2.2 ≤ e.2.2 := by
  induction l generalizing m with
  | nil => simp [oldestEntry] at h
  | cons e es ih =>
    rw [oldestEntry] at h
    rcases he : oldestEntry es with _ | m1 <;> rw [he] at h
    · have hes := oldestEntry_eq_none.mp he
      subst hes
      simp only [Option.some.injEq] at h
      subst h
      intro x hx
      rcases List.mem_cons.mp hx with h1 | h1
      · rw [h1]
      · simp at h1
    · dsimp only at h
      split_ifs at h with hlt <;> simp only [Option.some.injEq] at h <;>
        subst h
      · intro x hx
        rcases List.mem_cons.mp hx with h1 | h1
        · rw [h1]; exact le_of_lt hlt
        · exact ih he x h1
      · intro x hx
        rcases List.mem_cons.mp hx with h1 | h1
        · rw [h1]
        · exact le_trans (not_lt.mp hlt) (ih he x h1)

theorem oldestEntry_isSome {V : Type} {l : List (String × V × ℚ)}
    (h : l ≠ []) : ∃ m, oldestEntry l = some m := by
  cases l with
  | nil => exact absurd rfl h
  | cons e es =>
    rw [oldestEntry]
    rcases oldestEntry es with _ | m1
    · exact ⟨e, rfl⟩
    · dsimp only
      split_ifs <;> exact ⟨_, rfl⟩

theorem filter_key_length {V : Type} {l : List (String × V × ℚ)}
    {m : String × V × ℚ} (hm : m ∈ l) (hnd : (l.map Prod.fst).Nodup) :
    (l.filter (fun e => e.1 != m.1)).length + 1 = l.length := by
  induction l with
  | nil => simp at hm
  | cons e es ih =>
    rw [List.map_cons, List.nodup_cons] at hnd
    rcases List.mem_cons.mp hm with h1 | h1
    · subst h1
      rw [List.filter_cons]
      simp only [bne_self_eq_false, if_false]
      have hall : es.filter (fun e2 => e2.1 != m.1) = es := by
        apply List.filter_eq_self.mpr
        intro x hx
        have : x.1 ≠ m.1 := by
          intro hx1
          exact hnd.1 (hx1 ▸ List.mem_map_of_mem Prod.fst hx)
        simpa [bne_iff_ne]
      simp only [Bool.false_eq_true, if_false, hall]
      simp
    · have hne : e.1 ≠ m.1 := by
        intro he1
        exact hnd.1 (he1 ▸ List.mem_map_of_mem Prod.fst h1)
      rw [List.filter_cons]
      have : (e.1 != m.1) = true := bne_iff_ne.mpr hne
      rw [if_pos this, List.length_cons, List.length_cons]
      rw [← ih h1 hnd.2]

theorem insertOrReplace_length_le {V : Type} (l : List (String × V × ℚ))
    (key : String) (v : V) (now : ℚ) :
    (insertOrReplace l key v now).length ≤ l.length + 1 := by
  unfold insertOrReplace
  split_ifs
  · rw [List.length_map]; omega
  · rw [List.length_append]; simp

/-! ### Claims C5 and C6 (result cache) -/

/-- C5: while the cache holds `max_size` entries (its keys distinct, as in
a Python dict, and `max_size` positive so that the eviction `min` is over a
non-empty dict), `set` first evicts exactly one entry -- an entry with the
smallest insertion timestamp -- and then inserts, so a set on a cache
within capacity never leaves more than `max_size` entries. -/
theorem c5_cache_set_eviction {V : Type} (c : RecommendationCache V)
    (key : String) (v : V) (now : ℚ)
    (hnd : cacheKeysNodup c) (hpos : 0 < c.max_size) :
    (c.entries.length = c.max_size →
      ∃ m, m ∈ c.entries ∧ (∀ e ∈ c.entries, m.2.2 ≤ e.2.2) ∧
        cacheSet c key v now =
          some { c with entries := (insertOrReplace
            (c.entries.filter (fun e => e.1 != m.1)) key v now) } ∧
        (c.entries.filter (fun e => e.1 != m.1)).length + 1 = c.max_size) ∧
    (c.entries.length ≤ c.max_size →
      ∀ c2, cacheSet c key v now = some c2 →
        c2.entries.length ≤ c.max_size) := by
  constructor
  · intro hlen
    have hne : c.entries ≠ [] := by
      intro h0
      rw [h0] at hlen
      simp at hlen
      omega
    obtain ⟨m, hm⟩ := oldestEntry_isSome hne
    refine ⟨m, oldestEntry_mem hm, oldestEntry_min hm, ?_, ?_⟩
    · unfold cacheSet
      rw [if_pos (le_of_eq hlen.symm), hm]
    · rw [filter_key_length (oldestEntry_mem hm) hnd, hlen]
  · intro hle c2 hc2
    unfold cacheSet at hc2
    split_ifs at hc2 with hcap
    · rcases hm : oldestEntry c.entries with _ | m <;> rw [hm] at hc2
      · exact absurd hc2 (by simp)
      · simp only [Option.some.injEq] at hc2
        subst hc2
        dsimp only
        calc (insertOrReplace (c.entries.filter (fun e => e.1 != m.1))
                key v now).length
            ≤ (c.entries.filter (fun e => e.1 != m.1)).length + 1 :=
              insertOrReplace_length_le _ _ _ _
          _ = c.entries.length := filter_key_length (oldestEntry_mem hm) hnd
          _ ≤ c.max_size := hle
    · simp only [Option.some.injEq] at hc2
      subst hc2
      dsimp only
      calc (insertOrReplace c.entries key v now).length
          ≤ c.entries.length + 1 := insertOrReplace_length_le _ _ _ _
        _ ≤ c.max_size := by omega

/-- C5 (witness): a concrete full cache of capacity 2: the set evicts the
oldest entry (key "a", inserted at time 0), keeps the other, appends the
new one, and leaves the size at 2. -/
theorem c5_witness :
    cacheSet
        { entries := [(r"a", (1 : ℤ), 0), (r"b", 2, 5)], max_size := 2
          ttl_seconds := 300 } (r"k") 7 10 =
      some { entries := [(r"b", (2 : ℤ), 5), (r"k", 7, 10)], max_size := 2
             ttl_seconds := 300 } ∧
    ([(r"b", ((2 : ℤ), (5 : ℚ))), (r"k", 7, 10)] :
      List (String × ℤ × ℚ)).length ≤ 2 :=
  ⟨by decide,
    (c5_cache_set_eviction
        { entries := [(r"a", (1 : ℤ), 0), (r"b", 2, 5)], max_size := 2
          ttl_seconds := 300 } (r"k") 7 10 (by simp [cacheKeysNodup])
        (by norm_num)).2 (by norm_num)
      { entries := [(r"b", (2 : ℤ), 5), (r"k", 7, 10)], max_size := 2
        ttl_seconds := 300 } (by decide)⟩

/-- C6: `get` misses on an absent key (leaving the cache unchanged),
returns the stored value while `now - insertedAt < ttl_seconds`, and once
the age reaches `ttl_seconds` it misses and deletes the entry. -/
theorem c6_cache_get {V : Type} (c : RecommendationCache V) (key : String)
    (now : ℚ) :
    (cacheLookup c key = none → cacheGet c key now = (none, c)) ∧
    (∀ v ts, cacheLookup c key = some (v, ts) →
      now - ts < c.ttl_seconds → cacheGet c key now = (some v, c)) ∧
    (∀ v ts, cacheLookup c key = some (v, ts) →
      c.ttl_seconds ≤ now - ts →
      (cacheGet c key now).1 = none ∧
      cacheLookup (cacheGet c key now).2 key = none) := by
  refine ⟨?_, ?_, ?_⟩
  · intro h
    unfold cacheGet
    rw [h]
  · intro v ts h hfresh
    unfold cacheGet
    rw [h]
    exact if_pos hfresh
  · intro v ts h hexp
    unfold cacheGet
    rw [h]
    dsimp only
    rw [if_neg (not_lt.mpr hexp)]
    refine ⟨rfl, ?_⟩
    have hfind : (c.entries.filter (fun e => e.1 != key)).find?
        (fun e => e.1 == key) = none := by
      rw [List.find?_eq_none]
      intro x hx
      have hxk : (x.1 != key) = true := (List.mem_filter.mp hx).2
      simpa using bne_iff_ne.mp hxk
    simp [cacheLookup, hfind]
/-- C6 (witness): a concrete hit before expiry. -/
theorem c6_witness :
    cacheGet
        { entries := [(r"k", (7 : ℤ), 0)], max_size := 1000
          ttl_seconds := 300 } (r"k") 100 =
      (some 7,
        { entries := [(r"k", (7 : ℤ), 0)], max_size := 1000
          ttl_seconds := 300 }) :=
  (c6_cache_get
      { entries := [(r"k", (7 : ℤ), 0)], max_size := 1000
        ttl_seconds := 300 } (r"k") 100).2.1 7 0 rfl (by norm_num)

/-! ### ChromaDB environment and `RecommendationService`
(`decodeat/services/recommendation_service.py`)

The external ChromaDB collection is a list of stored metadata records in
insertion order (`store`), an `is_chromadb_available()` flag and a flag
that makes every collection call raise.  `get_collection_info` catches its
own exceptions and reports `count = 0` when unavailable or failing, as the
source does. -/

/-- One stored record: the metadata written by
`EnhancedVectorService.store_product_with_id` plus the stored embedding. -/
structure ProductMeta where
  product_id : ℤ
  embedding : List ℚ
  carbohydrate_ratio : ℚ
  protein_ratio : ℚ
  fat_ratio : ℚ
  total_calories : ℚ
  main_ingredients : String
deriving DecidableEq

/-- An exception raised by a ChromaDB call. -/
inductive ChromaErr where
  | dbError
deriving DecidableEq

structure ChromaEnv where
  available : Bool
  store : List ProductMeta
  opFails : Bool
deriving DecidableEq

/-- `(await get_collection_info()).get('count', 0)`: 0 when the store is
unavailable or the count call raises (both caught in the source). -/
def collection_count_info (env : ChromaEnv) : ℕ :=
  if env.available && !env.opFails then env.store.length else 0

/-- `self.collection.get(limit=n, include=['metadatas'])`. -/
def collection_get_limit (env : ChromaEnv) (limit : ℕ) :
    Except ChromaErr (List ProductMeta) :=
  if env.opFails then Except.error ChromaErr.dbError
  else Except.ok (env.store.take limit)

/-- `self.collection.get(ids=[str(product_id)], include=[...])`. -/
def collection_get_by_id (env : ChromaEnv) (pid : ℤ) :
    Except ChromaErr (List ProductMeta) :=
  if env.opFails then Except.error ChromaErr.dbError
  else Except.ok (env.store.filter (fun m => m.product_id == pid))

/-- One entry of a returned recommendation list.
`recommendation_type` is `none` when the source dict has no such key. -/
structure Recommendation where
  product_id : ℤ
  similarity_score : ℚ
  recommendation_reason : String
  recommendation_type : Option String
deriving DecidableEq

/-- `RecommendationService.get_fallback_recommendations`: up to `limit`
stored products with the neutral score 0.5 and reason "인기 제품"
("popular product"); empty when the store is unavailable, failing or
empty. -/
def get_fallback_recommendations (env : ChromaEnv) (limit : ℕ) :
    List Recommendation :=
  if env.available then
    if 0 < collection_count_info env then
      match collection_get_limit env (min limit (collection_count_info env)) with
      | Except.error _ => []
      | Except.ok metas =>
        metas.map (fun m =>
          { product_id := m.product_id, similarity_score := 1 / 2
            recommendation_reason := "인기 제품"
            recommendation_type := none })
    else []
  else []

/-- `RecommendationService.get_popularity_based_fallback`: up to `limit`
stored products in store order, the i-th with synthetic score
`max(0.3, 0.8 - i * 0.05)`, reason "인기 제품" ("popular product") and
type "popularity". -/
def get_popularity_based_fallback (env : ChromaEnv) (limit : ℕ) :
    List Recommendation :=
  if !env.available then []
  else if collection_count_info env = 0 then []
  else
    match collection_get_limit env (min limit (collection_count_info env)) with
    | Except.error _ => []
    | Except.ok metas =>
      metas.enum.map (fun p =>
        { product_id := p.2.product_id
          similarity_score := max 0.3 (0.8 - (p.1 : ℚ) * 0.05)
          recommendation_reason := "인기 제품"
          recommendation_type := some (r"popularity") })

/-- Behavior-pattern analysis summary, as far as
`evaluate_recommendation_quality` reads it. -/
structure BehaviorAnalysis where
  engagement_level : String
  total_interactions : ℕ
deriving DecidableEq

/-- `RecommendationService.evaluate_recommendation_quality`.  With no
behavior analysis supplied (`none`, or a falsy empty dict in Python) the
internal behavior quality stays at its initial value "fair". -/
def evaluate_recommendation_quality (recommendations : List Recommendation)
    (user_behavior_analysis : Option BehaviorAnalysis) : String :=
  if recommendations = [] then "poor"
  else
    let rec_count := recommendations.length
    let avg_similarity : ℚ :=
      (recommendations.map (fun r => r.similarity_score)).sum / rec_count
    let behavior_quality : String :=
      match user_behavior_analysis with
      | none => "fair"
      | some a =>
        if (a.engagement_level = "very_high" ∨ a.engagement_level = "high") ∧
            10 ≤ a.total_interactions then "excellent"
        else if (a.engagement_level = "high" ∨
            a.engagement_level = "medium") ∧ 5 ≤ a.total_interactions then
          "good"
        else if 3 ≤ a.total_interactions then "fair"
        else "poor"
    if 0.8 ≤ avg_similarity ∧ 10 ≤ rec_count ∧
        (behavior_quality = "excellent" ∨ behavior_quality = "good") then
      "excellent"
    else if 0.7 ≤ avg_similarity ∧ 5 ≤ rec_count ∧
        (behavior_quality = "good" ∨ behavior_quality = "fair") then "good"
    else if 0.6 ≤ avg_similarity ∧ 3 ≤ rec_count then "fair"
    else "poor"

/-- One user-behavior event as the service reads it
(`behavior.get('product_id')`, `behavior.get('behavior_type', 'VIEW')`). -/
structure BehaviorEvent where
  product_id : Option ℤ
  behavior_type : Option String
deriving DecidableEq

/-- `RecommendationService.BEHAVIOR_WEIGHTS.get(s, 1)`. -/
def BEHAVIOR_WEIGHTS (s : String) : ℚ :=
  if s = "REGISTER" then 5
  else if s = "LIKE" then 3
  else if s = "SEARCH" then 2
  else if s = "VIEW" then 1
  else 1

/-- Python truthiness guard `if not product_id: continue`: both a missing
product id and the id 0 are skipped. -/
def truthy_product_id : Option ℤ → Option ℤ
  | none => none
  | some n => if n = 0 then none else some n

/-- `product_vector * weight` (NumPy elementwise). -/
def vecScale (w : ℚ) (v : List ℚ) : List ℚ := v.map (fun x => x * w)

/-- NumPy elementwise vector addition. -/
def vecAdd (a b : List ℚ) : List ℚ := List.zipWith (fun x y => x + y) a b

/-- `np.sum(vectors, axis=0)`. -/
def vecSum : List (List ℚ) → List ℚ
  | [] => []
  | v :: vs => vs.foldl vecAdd v

/-- `RecommendationService.generate_user_preference_vector` (the function
body is byte-identical in `UserBehaviorRecommendationService`): weighted
average of the stored embeddings of the products in the behavior history;
`none` when no event contributes. -/
def generate_user_preference_vector (env : ChromaEnv)
    (behavior_data : List BehaviorEvent) : Option (List ℚ) :=
  if behavior_data = [] then none
  else if !env.available then none
  else
    let step := behavior_data.foldl
      (fun (acc : List (List ℚ) × ℚ) b =>
        match truthy_product_id b.product_id with
        | none => acc
        | some pid =>
          match collection_get_by_id env pid with
          | Except.error _ => acc
          | Except.ok metas =>
            match metas with
            | [] => acc
            | m :: _ =>
              let w := BEHAVIOR_WEIGHTS
                (match b.behavior_type with
                  | none => "VIEW"
                  | some s => s).toUpper
              (acc.1 ++ [vecScale w m.embedding], acc.2 + w))
      ([], 0)
    if step.1 = [] then none
    else some ((vecSum step.1).map (fun x => x / step.2))

/-- Cache key produced by `RecommendationCache._generate_key` for
`get(type="product_based", product_id=..., limit=...)`: parameters sorted
by name. -/
def genKeyProductBased (product_id : ℤ) (limit : ℕ) : String :=
  "limit:" ++ toString limit ++ "|product_id:" ++ toString product_id ++
    "|type:product_based"

/-- `RecommendationService.get_product_based_recommendations`: consult the
cache, then ChromaDB availability, then `find_similar_products` (passed in
as the vector-search oracle, itself a thin wrapper over the external
store); every failure or empty result degrades to
`get_fallback_recommendations`.  Returns the recommendation list and the
cache as left by the call. -/
def get_product_based_recommendations (env : ChromaEnv)
    (find_similar_products : ℤ → ℕ → Except ChromaErr (List Recommendation))
    (cache : RecommendationCache (List Recommendation))
    (product_id : ℤ) (limit : ℕ) (now : ℚ) :
    List Recommendation × RecommendationCache (List Recommendation) :=
  let key := genKeyProductBased product_id limit
  let got := cacheGet cache key now
  let rest := fun (c1 : RecommendationCache (List Recommendation)) =>
    if !env.available then (get_fallback_recommendations env limit, c1)
    else
      match find_similar_products product_id limit with
      | Except.error _ => (get_fallback_recommendations env limit, c1)
      | Except.ok recs =>
        if recs = [] then (get_fallback_recommendations env limit, c1)
        else
          match cacheSet c1 key recs now with
          | some c2 => (recs, c2)
          | none => (get_fallback_recommendations env limit, c1)
  match got.1 with
  | some v => if v = [] then rest got.2 else (v, got.2)
  | none => rest got.2

/-! ### Claim C10 (quality grading without behavior analysis) -/

/-- C10: called without a behavior analysis (as in the product-based
route), the internal behavior quality defaults to "fair", the "excellent"
branch can never fire, and the grade is one of "good", "fair", "poor". -/
theorem c10_quality_no_behavior (recommendations : List Recommendation) :
    evaluate_recommendation_quality recommendations none = "good" ∨
    evaluate_recommendation_quality recommendations none = "fair" ∨
    evaluate_recommendation_quality recommendations none = "poor" := by
  unfold evaluate_recommendation_quality
  by_cases hempty : recommendations = []
  · simp [hempty]
  · rw [if_neg hempty]
    dsimp only
    rw [if_neg ?hexc]
    case hexc =>
      intro h
      rcases h.2.2 with h1 | h1 <;> simp at h1
    split_ifs <;> simp

/-! ### Claim C9 (single-event preference vector) -/

theorem BEHAVIOR_WEIGHTS_pos (s : String) : 0 < BEHAVIOR_WEIGHTS s := by
  unfold BEHAVIOR_WEIGHTS
  split_ifs <;> norm_num

/-- C9 (amended): a behavior history consisting of exactly one event whose
product id is non-zero and has a stored embedding yields a preference
vector exactly equal to that embedding, for every behavior type: the
weight cancels in `sum / total_weight`.  (An id of 0 is skipped by the
Python truthiness guard, see the counterexample.) -/
theorem c9_single_event (env : ChromaEnv) (b : BehaviorEvent) (pid : ℤ)
    (m : ProductMeta) (rest : List ProductMeta)
    (hav : env.available = true) (hof : env.opFails = false)
    (hpid : b.product_id = some pid) (hnz : pid ≠ 0)
    (hfind : env.store.filter (fun r => r.product_id == pid) = m :: rest) :
    generate_user_preference_vector env [b] = some m.embedding := by
  unfold generate_user_preference_vector
  rw [if_neg (by simp)]
  rw [hav]
  simp only [Bool.not_true, Bool.false_eq_true, if_false]
  rw [List.foldl_cons, List.foldl_nil]
  rw [hpid]
  unfold truthy_product_id
  dsimp only
  rw [if_neg hnz]
  unfold collection_get_by_id
  rw [hof]
  simp only [Bool.false_eq_true, if_false]
  rw [hfind]
  dsimp only
  rw [if_neg (by simp)]
  rw [List.nil_append]
  unfold vecSum
  dsimp only
  rw [List.foldl_nil]
  unfold vecScale
  rw [List.map_map]
  have hw : BEHAVIOR_WEIGHTS
      (match b.behavior_type with
        | none => "VIEW"
        | some s => s).toUpper ≠ 0 :=
    ne_of_gt (BEHAVIOR_WEIGHTS_pos _)
  congr 1
  have hcomp : ((fun x => x /
      (0 + BEHAVIOR_WEIGHTS
        (match b.behavior_type with
          | none => "VIEW"
          | some s => s).toUpper)) ∘ (fun x => x *
      BEHAVIOR_WEIGHTS
        (match b.behavior_type with
          | none => "VIEW"
          | some s => s).toUpper)) = fun x : ℚ => x := by
    funext x
    simp only [Function.comp_apply, zero_add]
    exact mul_div_cancel_right₀ x hw
  rw [hcomp]
  simp

/-! ### Claim C7 (popularity fallback scores) -/

/-- C7: with the store available and healthy, the popularity fallback
samples the first `min limit count` stored products in store order, the
i-th receiving score `max(0.3, 0.8 - 0.05 * i)`, reason "인기 제품"
("popular product") and type "popularity"; with 5 stored products (and
`limit ≥ 5`) the scores are exactly [0.8, 0.75, 0.70, 0.65, 0.60]. -/
theorem c7_popularity_fallback (env : ChromaEnv) (limit : ℕ)
    (h1 : env.available = true) (h2 : env.opFails = false) :
    (get_popularity_based_fallback env limit).length =
      min limit env.store.length ∧
    (∀ i : ℕ, i < min limit env.store.length →
      (get_popularity_based_fallback env limit)[i]? =
        (env.store[i]?).map (fun m =>
          { product_id := m.product_id
            similarity_score := max 0.3 (0.8 - (i : ℚ) * 0.05)
            recommendation_reason := "인기 제품"
            recommendation_type := some (r"popularity") })) ∧
    (env.store.length = 5 → 5 ≤ limit →
      (get_popularity_based_fallback env limit).map
          (fun r => r.similarity_score) = [0.8, 0.75, 0.7, 0.65, 0.6]) := by
  have hcnt : collection_count_info env = env.store.length := by
    unfold collection_count_info
    rw [h1, h2]
    simp
  have hres : get_popularity_based_fallback env limit =
      (env.store.take (min limit env.store.length)).enum.map (fun p =>
        { product_id := p.2.product_id
          similarity_score := max 0.3 (0.8 - (p.1 : ℚ) * 0.05)
          recommendation_reason := "인기 제품"
          recommendation_type := some (r"popularity") }) := by
    unfold get_popularity_based_fallback
    rw [h1]
    simp only [Bool.not_true, Bool.false_eq_true, if_false]
    rw [hcnt]
    by_cases hlen : env.store.length = 0
    · rw [if_pos hlen, hlen]
      rw [List.length_eq_zero.mp hlen]
      simp
    · rw [if_neg hlen]
      unfold collection_get_limit
      rw [h2]
      simp only [Bool.false_eq_true, if_false]
  refine ⟨?_, ?_, ?_⟩
  · rw [hres, List.length_map, List.enum_length, List.length_take]
    exact min_eq_left (min_le_right limit env.store.length)
  · intro i hi
    rw [hres, List.getElem?_map, List.getElem?_enum, List.getElem?_take]
    rw [if_pos hi, Option.map_map]
    rfl
  · intro h5 hlim
    have hk : min limit env.store.length = 5 := by
      rw [h5]
      exact min_eq_right hlim
    rw [hres, hk]
    rw [List.take_of_length_le (le_of_eq h5)]
    rcases hs : env.store with _ | ⟨a, _ | ⟨b, _ | ⟨c, _ | ⟨d, _ | ⟨e, tail⟩⟩⟩⟩⟩ <;>
      rw [hs] at h5 <;> simp only [List.length_cons, List.length_nil] at h5 <;>
      try omega
    have htail : tail = [] := by
      have : tail.length = 0 := by omega
      exact List.length_eq_zero.mp this
    subst htail
    simp only [List.enum, List.enumFrom, List.map_cons, List.map_nil]
    norm_num

/-- A minimal stored record used by concrete instances. -/
def sampleMeta (pid : ℤ) (emb : List ℚ) : ProductMeta :=
  { product_id := pid, embedding := emb, carbohydrate_ratio := 0
    protein_ratio := 0, fat_ratio := 0, total_calories := 0
    main_ingredients := "" }

/-- A healthy environment with five stored products. -/
def fiveProductEnv : ChromaEnv :=
  { available := true
    store := [sampleMeta 1 [], sampleMeta 2 [], sampleMeta 3 [],
      sampleMeta 4 [], sampleMeta 5 []]
    opFails := false }

/-- C7 (witness): the popularity-fallback theorem applied to a concrete
store of five products with limit 10. -/
theorem c7_witness :
    (get_popularity_based_fallback fiveProductEnv 10).map
        (fun r => r.similarity_score) = [0.8, 0.75, 0.7, 0.65, 0.6] :=
  (c7_popularity_fallback fiveProductEnv 10 rfl rfl).2.2 rfl (by norm_num)

/-- A healthy environment storing one embedding under product id 5. -/
def oneProductEnv : ChromaEnv :=
  { available := true, store := [sampleMeta 5 [1, 2, 3]], opFails := false }

/-- C9 (witness): the single-event theorem applied to a concrete store and
a LIKE event on product 5. -/
theorem c9_witness :
    generate_user_preference_vector oneProductEnv
        [{ product_id := some 5, behavior_type := some (r"LIKE") }] =
      some [1, 2, 3] :=
  c9_single_event oneProductEnv
    { product_id := some 5, behavior_type := some (r"LIKE") } 5
    (sampleMeta 5 [1, 2, 3]) [] rfl rfl rfl (by norm_num) (by decide)

/-- A stored record under the Python-falsy product id 0. -/
def idZeroEnv : ChromaEnv :=
  { available := true, store := [sampleMeta 0 [1, 2]], opFails := false }

/-- C9 (counterexample): product id 0 has a stored embedding, but a
single-event history on it yields `none` rather than that embedding: the
service skips the event at `if not product_id` before looking the vector
up. -/
theorem c9_counterexample :
    (idZeroEnv.store.filter (fun r => r.product_id == 0)).map
        (fun r => r.embedding) = [[1, 2]] ∧
    generate_user_preference_vector idZeroEnv
        [{ product_id := some 0, behavior_type := some (r"VIEW") }] =
      none := by
  exact ⟨by decide, by decide⟩

/-! ### Claim C1 (product-based request with the store unavailable) -/

/-- C1 (amended): when the vector store is unavailable the function never
raises (it is total and every internal failure is caught): the fallback
list is empty, the call returns the fresh non-empty cached list for this
exact request signature if there is one, and the empty list otherwise. -/
theorem c1_unavailable (env : ChromaEnv)
    (find_similar_products : ℤ → ℕ → Except ChromaErr (List Recommendation))
    (cache : RecommendationCache (List Recommendation))
    (product_id : ℤ) (limit : ℕ) (now : ℚ)
    (h : env.available = false) :
    get_fallback_recommendations env limit = [] ∧
    (get_product_based_recommendations env find_similar_products cache
        product_id limit now).1 =
      (match (cacheGet cache (genKeyProductBased product_id limit) now).1 with
        | some v => if v = [] then [] else v
        | none => []) := by
  have hfb : get_fallback_recommendations env limit = [] := by
    unfold get_fallback_recommendations
    rw [h]
    simp
  refine ⟨hfb, ?_⟩
  unfold get_product_based_recommendations
  rcases hg : (cacheGet cache (genKeyProductBased product_id limit) now).1
    with _ | v
  · dsimp only
    rw [hg]
    dsimp only
    rw [h]
    simp [hfb]
  · dsimp only
    rw [hg]
    dsimp only
    by_cases hv : v = []
    · rw [if_pos hv, if_pos hv]
      rw [h]
      simp [hfb]
    · rw [if_neg hv, if_neg hv]

/-- The cached list used by the C1 counterexample. -/
def cachedRec : Recommendation :=
  { product_id := 42, similarity_score := 9 / 10
    recommendation_reason := "매우 유사한 제품", recommendation_type := none }

/-- An unavailable environment. -/
def downEnv : ChromaEnv :=
  { available := false, store := [], opFails := false }

/-- A cache primed (at time 100) with a non-empty product-based result for
product 7, limit 15. -/
def primedCache : RecommendationCache (List Recommendation) :=
  { entries := [(genKeyProductBased 7 15, [cachedRec], 100)]
    max_size := 1000, ttl_seconds := 300 }

/-- C1 (counterexample): with the store unavailable but a fresh cache
entry for the request (possible only because the store was available
earlier), the call returns the cached similarity list -- which is neither
the popularity fallback list (empty here) nor the empty list. -/
theorem c1_counterexample :
    (get_product_based_recommendations downEnv (fun _ _ => Except.ok [])
        primedCache 7 15 150).1 = [cachedRec] ∧
    get_fallback_recommendations downEnv 15 = [] ∧
    [cachedRec] ≠ ([] : List Recommendation) := by
  refine ⟨by decide, by decide, by decide⟩

/-- C1 (witness): the amended theorem applied to the unavailable
environment with an empty cache: the call returns the empty list. -/
theorem c1_witness :
    get_fallback_recommendations downEnv 15 = [] ∧
    (get_product_based_recommendations downEnv (fun _ _ => Except.ok [])
        { entries := [], max_size := 1000, ttl_seconds := 300 }
        7 15 0).1 = [] :=
  c1_unavailable downEnv (fun _ _ => Except.ok [])
    { entries := [], max_size := 1000, ttl_seconds := 300 } 7 15 0 rfl

/-! ### Claim C4 (`VectorService.convert_text_to_vector`,
`decodeat/services/vector_service.py`, lines 235-275)

The sentence-transformer model is the `encode` oracle; a raised exception
is `Except.error`.  Python `str.strip()` is `String.trim`. -/

/-- Python `str.strip()`: drop leading and trailing whitespace.  (Lean's
`String.trim` is implemented with partial substring auxiliaries that do
not reduce, so the same function is written over the character list.) -/
def pyStrip (s : String) : String :=
  String.mk (((s.data.dropWhile Char.isWhitespace).reverse.dropWhile
    Char.isWhitespace).reverse)

/-- An exception raised by the embedding model. -/
inductive ModelErr where
  | modelFail
deriving DecidableEq

/-- `VectorService.convert_text_to_vector`. -/
def convert_text_to_vector (encode : String → Except ModelErr (List ℚ))
    (text : String) : List ℚ :=
  if text = "" ∨ pyStrip text = "" then List.replicate 384 0
  else
    match encode (pyStrip text) with
    | Except.error _ => List.replicate 384 0
    | Except.ok vector =>
      if vector.length = 384 then vector
      else if 384 < vector.length then vector.take 384
      else vector ++ List.replicate (384 - vector.length) 0

/-- C4: the returned vector always has exactly 384 dimensions; empty or
whitespace-only text maps to the zero vector; a longer model output is
truncated and a shorter one zero-padded. -/
theorem c4_convert_text_to_vector
    (encode : String → Except ModelErr (List ℚ)) (text : String) :
    (convert_text_to_vector encode text).length = 384 ∧
    (pyStrip text = "" →
      convert_text_to_vector encode text = List.replicate 384 0) ∧
    (∀ v, pyStrip text ≠ "" → encode (pyStrip text) = Except.ok v →
      384 ≤ v.length → convert_text_to_vector encode text = v.take 384) ∧
    (∀ v, pyStrip text ≠ "" → encode (pyStrip text) = Except.ok v →
      v.length ≤ 384 →
      convert_text_to_vector encode text =
        v ++ List.replicate (384 - v.length) 0) := by
  have hblank : ∀ h : text = "" ∨ pyStrip text = "", pyStrip text = "" := by
    rintro (h | h)
    · rw [h]
      rfl
    · exact h
  refine ⟨?_, ?_, ?_, ?_⟩
  · unfold convert_text_to_vector
    split_ifs with h0
    · rw [List.length_replicate]
    · rcases encode (pyStrip text) with _ | v
      · rw [List.length_replicate]
      · dsimp only
        split_ifs with hl hgt
        · exact hl
        · rw [List.length_take]
          omega
        · rw [List.length_append, List.length_replicate]
          omega
  · intro h
    unfold convert_text_to_vector
    rw [if_pos (Or.inr h)]
  · intro v hne henc hlen
    unfold convert_text_to_vector
    rw [if_neg (fun h => hne (hblank h)), henc]
    dsimp only
    split_ifs with hl hgt
    · rw [List.take_of_length_le (le_of_eq hl)]
    · rfl
    · omega
  · intro v hne henc hlen
    unfold convert_text_to_vector
    rw [if_neg (fun h => hne (hblank h)), henc]
    dsimp only
    split_ifs with hl hgt
    · rw [hl]
      simp
    · omega
    · rfl

/-- C4 (witness): the conversion theorem applied to a model returning a
3-dimensional vector on the text "a" (zero-padded to 384), and to the
whitespace-only text " " (zero vector). -/
theorem c4_witness :
    convert_text_to_vector (fun _ => Except.ok [1, 2, 3]) (r"a") =
      [1, 2, 3] ++ List.replicate 381 0 ∧
    convert_text_to_vector (fun _ => Except.ok [1, 2, 3]) (r" ") =
      List.replicate 384 0 :=
  ⟨(c4_convert_text_to_vector (fun _ => Except.ok [1, 2, 3]) (r"a")).2.2.2
      [1, 2, 3] (by decide) rfl (by norm_num),
    (c4_convert_text_to_vector (fun _ => Except.ok [1, 2, 3]) (r" ")).2.1
      (by decide)⟩

/-! ### `ProductBasedRecommendationService`
(`decodeat/services/product_based_recommendation_service.py`)

The cosine similarity needs a square root, so the scoring side of this
service is idealised over `ℝ` (noncomputable, with classical decisions for
the comparisons); the stored data stays rational. -/

/-- `ingredient.lower().strip()`.  (Written over the character list, like
`pyStrip`, so that concrete instances reduce.) -/
def pyLowerStrip (s : String) : String :=
  pyStrip (String.mk (s.data.map Char.toLower))

/-- `ProductBasedRecommendationService.calculate_nutrition_similarity`:
cosine similarity of the two (carb%, protein%, fat%) vectors, remapped
from [-1,1] to [0,1] and clamped.  Zero-magnitude vectors give 0.  With
non-zero norms the real-number idealisation produces no NaN, so the
source's NaN branch cannot fire. -/
noncomputable def calculate_nutrition_similarity
    (ratios1 ratios2 : NutritionRatios) : ℝ :=
  let x1 : ℝ := (ratios1.carbohydrate_ratio : ℝ)
  let y1 : ℝ := (ratios1.protein_ratio : ℝ)
  let z1 : ℝ := (ratios1.fat_ratio : ℝ)
  let x2 : ℝ := (ratios2.carbohydrate_ratio : ℝ)
  let y2 : ℝ := (ratios2.protein_ratio : ℝ)
  let z2 : ℝ := (ratios2.fat_ratio : ℝ)
  let n1 := Real.sqrt (x1 ^ 2 + y1 ^ 2 + z1 ^ 2)
  let n2 := Real.sqrt (x2 ^ 2 + y2 ^ 2 + z2 ^ 2)
  if n1 = 0 ∨ n2 = 0 then 0
  else
    let similarity := (x1 * x2 + y1 * y2 + z1 * z2) / (n1 * n2)
    let normalized_similarity := (similarity + 1) / 2
    max 0 (min 1 normalized_similarity)

/-- `ProductBasedRecommendationService.calculate_ingredient_similarity`:
weighted Jaccard similarity on the lower-cased, stripped top-5 ingredient
sets, weight 2.0 for an ingredient among the first 3 of its list. -/
def calculate_ingredient_similarity
    (ingredients1 ingredients2 : List String) : ℚ :=
  if ingredients1 = [] ∨ ingredients2 = [] then 0
  else
    let set1 := ((ingredients1.take 5).filterMap (fun i =>
      if pyStrip i = "" then none else some (pyLowerStrip i))).dedup
    let set2 := ((ingredients2.take 5).filterMap (fun i =>
      if pyStrip i = "" then none else some (pyLowerStrip i))).dedup
    if set1 = [] ∨ set2 = [] then 0
    else
      let intersection := set1.filter (fun x => set2.contains x)
      let union := (set1 ++ set2).dedup
      if union = [] then 0
      else
        let low3A := (ingredients1.take 3).map (fun i => pyLowerStrip i)
        let low3B := (ingredients2.take 3).map (fun i => pyLowerStrip i)
        let contributions := union.map (fun ingredient =>
          let weight1 : ℚ := if ingredient ∈ low3A then 2 else 1
          let weight2 : ℚ := if ingredient ∈ low3B then 2 else 1
          let max_weight := max (if ingredient ∈ set1 then weight1 else 0)
            (if ingredient ∈ set2 then weight2 else 0)
          (max_weight,
            if ingredient ∈ intersection then max_weight else 0))
        let weighted_union := (contributions.map Prod.fst).sum
        let weighted_intersection := (contributions.map Prod.snd).sum
        if weighted_union = 0 then 0
        else max 0 (min 1 (weighted_intersection / weighted_union))

/-- `ProductBasedRecommendationService.calculate_final_score`: weighted
average with the weights renormalised, clamped to [0,1]. -/
noncomputable def calculate_final_score
    (nutrition_similarity ingredient_similarity : ℝ)
    (nutrition_weight ingredient_weight : ℝ) : ℝ :=
  let total_weight := nutrition_weight + ingredient_weight
  if total_weight = 0 then 0
  else
    max 0 (min 1 (nutrition_similarity * (nutrition_weight / total_weight) +
      ingredient_similarity * (ingredient_weight / total_weight)))

/-- `ProductBasedRecommendationService.generate_recommendation_reason`. -/
noncomputable def generate_recommendation_reason
    (nutrition_similarity ingredient_similarity final_score : ℝ) : String :=
  if 0.9 ≤ final_score then
    if 0.8 ≤ nutrition_similarity ∧ 0.8 ≤ ingredient_similarity then
      "영양소 구성과 원재료가 매우 유사한 제품"
    else if 0.8 ≤ nutrition_similarity then "탄단지 비율이 매우 유사한 제품"
    else if 0.8 ≤ ingredient_similarity then "주요 원재료가 매우 유사한 제품"
    else "매우 유사한 제품"
  else if 0.8 ≤ final_score then
    if ingredient_similarity < nutrition_similarity then
      "영양소 구성이 유사한 제품"
    else "주요 원재료가 비슷한 제품"
  else if 0.7 ≤ final_score then
    if 0.7 ≤ nutrition_similarity then "탄단지 비율이 비슷한 제품"
    else if 0.7 ≤ ingredient_similarity then "원재료가 유사한 제품"
    else "관련 제품"
  else if 0.6 ≤ final_score then "유사한 특성을 가진 제품"
  else "관련 제품"

/-- `metadata.get('main_ingredients', '').split(', ') if truthy else []`. -/
def split_main_ingredients (s : String) : List String :=
  if s = "" then [] else s.splitOn (r", ")

/-- The record `EnhancedVectorService.get_product_by_id` returns (the
fields this service reads). -/
structure StoredProduct where
  product_id : ℤ
  nutrition_ratios : NutritionRatios
  main_ingredients : List String
  embedding : List ℚ
deriving DecidableEq

/-- `EnhancedVectorService.get_product_by_id`. -/
def get_product_by_id (env : ChromaEnv) (pid : ℤ) : Option StoredProduct :=
  if !env.available then none
  else
    match collection_get_by_id env pid with
    | Except.error _ => none
    | Except.ok metas =>
      match metas with
      | [] => none
      | m :: _ =>
        some { product_id := m.product_id
               nutrition_ratios :=
                 { carbohydrate_ratio := m.carbohydrate_ratio
                   protein_ratio := m.protein_ratio
                   fat_ratio := m.fat_ratio
                   total_calories := m.total_calories }
               main_ingredients := split_main_ingredients m.main_ingredients
               embedding := m.embedding }

/-- One entry of `ProductBasedRecommendationService.get_recommendations`. -/
structure ScoredRecommendation where
  product_id : ℤ
  similarity_score : ℝ
  nutrition_similarity : ℝ
  ingredient_similarity : ℝ
  recommendation_reason : String
  nutrition_ratios : NutritionRatios
  main_ingredients : List String

/-- Descending order by composite score, the key of the source's
`recommendations.sort(key=..., reverse=True)`. -/
def byScoreDesc (a b : ScoredRecommendation) : Prop :=
  b.similarity_score ≤ a.similarity_score

noncomputable instance : DecidableRel byScoreDesc :=
  fun _ _ => Classical.propDecidable _

instance : IsTotal ScoredRecommendation byScoreDesc :=
  ⟨fun a b => le_total b.similarity_score a.similarity_score⟩

instance : IsTrans ScoredRecommendation byScoreDesc :=
  ⟨fun _ _ _ h1 h2 => le_trans h2 h1⟩

/-- `ProductBasedRecommendationService.get_recommendations`: score every
stored candidate against the reference product, skip the reference itself,
drop scores below 0.1, sort descending (a stable sort, modelled by
insertion sort with the non-strict descending order) and keep the top
`limit`. -/
noncomputable def get_recommendations (env : ChromaEnv) (product_id : ℤ)
    (limit : ℕ) : List ScoredRecommendation :=
  if !env.available then []
  else
    match get_product_by_id env product_id with
    | none => []
    | some reference_product =>
      if collection_count_info env ≤ 1 then []
      else
        match collection_get_limit env
            (min 1000 (collection_count_info env)) with
        | Except.error _ => []
        | Except.ok all_products =>
          let recommendations := all_products.filterMap (fun metadata =>
            if metadata.product_id == product_id then none
            else
              let candidate_ratios : NutritionRatios :=
                { carbohydrate_ratio := metadata.carbohydrate_ratio
                  protein_ratio := metadata.protein_ratio
                  fat_ratio := metadata.fat_ratio
                  total_calories := metadata.total_calories }
              let candidate_ingredients :=
                split_main_ingredients metadata.main_ingredients
              let nutrition_similarity := calculate_nutrition_similarity
                reference_product.nutrition_ratios candidate_ratios
              let ingredient_similarity : ℝ :=
                ((calculate_ingredient_similarity
                  reference_product.main_ingredients
                  candidate_ingredients : ℚ) : ℝ)
              let final_score := calculate_final_score nutrition_similarity
                ingredient_similarity 0.6 0.4
              if final_score < 0.1 then none
              else
                some { product_id := metadata.product_id
                       similarity_score := round3 final_score
                       nutrition_similarity := round3 nutrition_similarity
                       ingredient_similarity := round3 ingredient_similarity
                       recommendation_reason := generate_recommendation_reason
                         nutrition_similarity ingredient_similarity final_score
                       nutrition_ratios := candidate_ratios
                       main_ingredients := candidate_ingredients })
          (recommendations.insertionSort byScoreDesc).take limit

/-! ### Claim C3 (shape of the product-based recommendation list) -/

theorem le_round3_of_le {K : Type} [LinearOrderedField K] [FloorRing K]
    {x : K} {n : ℤ} (h : (n : K) ≤ 1000 * x) : (n : K) / 1000 ≤ round3 x := by
  unfold round3
  have h1 : n ≤ rhe (1000 * x) := le_rhe_of_le h
  have h2 : ((n : ℤ) : K) ≤ (rhe (1000 * x) : ℤ) := Int.cast_le.mpr h1
  exact div_le_div_of_nonneg_right h2 (by norm_num)

/-- C3: for every reference product that is found in the store, every
entry of the returned list names a product other than the reference and
carries a (rounded) composite score of at least 0.1, the list is sorted in
descending order of `similarity_score`, and it has at most `limit`
entries. -/
theorem c3_get_recommendations (env : ChromaEnv) (product_id : ℤ)
    (limit : ℕ) (ref : StoredProduct)
    (h1 : env.available = true)
    (h2 : get_product_by_id env product_id = some ref) :
    (get_recommendations env product_id limit).length ≤ limit ∧
    List.Sorted byScoreDesc (get_recommendations env product_id limit) ∧
    ∀ e ∈ get_recommendations env product_id limit,
      e.product_id ≠ product_id ∧ (0.1 : ℝ) ≤ e.similarity_score := by
  unfold get_recommendations
  rw [h1]
  simp only [Bool.not_true, Bool.false_eq_true, if_false]
  rw [h2]
  dsimp only
  by_cases hc : collection_count_info env ≤ 1
  · rw [if_pos hc]
    exact ⟨by simp, List.sorted_nil, by simp⟩
  · rw [if_neg hc]
    rcases hg : collection_get_limit env
        (min 1000 (collection_count_info env)) with e0 | all_products
    · exact ⟨by simp, List.sorted_nil, by simp⟩
    · refine ⟨List.length_take_le _ _, ?_, ?_⟩
      · exact List.Pairwise.sublist (List.take_sublist _ _)
          (List.sorted_insertionSort byScoreDesc _)
      · intro e he
        dsimp only at he
        have he2 := List.take_subset _ _ he
        have he3 := (List.perm_insertionSort byScoreDesc _).mem_iff.mp he2
        obtain ⟨meta, hmem, hf⟩ := List.mem_filterMap.mp he3
        by_cases hid : meta.product_id = product_id
        · rw [if_pos (by simp [hid])] at hf
          exact absurd hf (by simp)
        · rw [if_neg (by simp [hid])] at hf
          split_ifs at hf with hlow
          push_neg at hlow
          have he4 := Option.some.inj hf
          constructor
          · rw [← he4]
            exact hid
          · rw [← he4]
            dsimp only
            have h01 : ((100 : ℤ) : ℝ) / 1000 = (0.1 : ℝ) := by norm_num
            rw [← h01]
            exact le_round3_of_le (by push_cast; linarith)

/-- C3 (witness): the shape theorem applied to a store holding only the
reference product (the scan then finds no candidate and returns the empty
list, which satisfies all three properties). -/
theorem c3_witness :
    (get_recommendations oneProductEnv 5 15).length ≤ 15 ∧
    List.Sorted byScoreDesc (get_recommendations oneProductEnv 5 15) ∧
    ∀ e ∈ get_recommendations oneProductEnv 5 15,
      e.product_id ≠ 5 ∧ (0.1 : ℝ) ≤ e.similarity_score :=
  c3_get_recommendations oneProductEnv 5 15
    { product_id := 5
      nutrition_ratios :=
        { carbohydrate_ratio := 0, protein_ratio := 0, fat_ratio := 0
          total_calories := 0 }
      main_ingredients := []
      embedding := [1, 2, 3] } rfl (by decide)
